import Mathlib

/-!
# Verification of `src/script.js` (FrontlinerISAwareness)

Shallow embedding of the interactive slide deck's logic: the scene selector,
the scene-1 lock-screen exercise, and the scene-2 flip quiz (render, choice
selection, advancing, restart, confetti celebration).

Modelling conventions:
* Randomness (`Math.random()`) is an explicit stream `rnd : Nat → ℚ`; a call
  site consumes successive indices.  Real `Math.random()` values lie in
  `[0, 1)`, which theorems take as a hypothesis where needed.
* DOM side effects relevant to the claims are projected into explicit state
  records (`QuizState`, `Scene1State`).  Purely visual details (tween easings,
  the onboarding-notification timer, CSS classes with no claim about them) are
  not part of the state.
* `dataset` values are strings, as in the DOM: `btn.dataset.correct = choice.correct`
  stores `"true"` / `"false"`, and the click handler compares with `=== 'true'`.
* Null-guard structure of the code (which element lookups are checked before
  use) is modelled separately by `Except`-valued walks over presence records.
-/

namespace Frontliner

/-- One answer option of a quiz question (src/script.js quizData entries). -/
structure Choice where
  text : String
  correct : Bool
  message : String
deriving DecidableEq, Repr

/-- One quiz question: a scenario plus its ordered choices. -/
structure QuizQuestion where
  scenario : String
  choices : List Choice
deriving DecidableEq, Repr

/-- The fixed quiz content, transcribed from src/script.js lines 224–265.
ASCII apostrophes inside the strings are written with the `\x27` escape. -/
def quizData : List QuizQuestion := [
  { scenario := "An employee uses their personal phone to take a picture of a workplace incident.",
    choices := [
      { text := "Breach of Policy", correct := true,
        message := "Using personal phones for incident reports is risky. Use official devices." },
      { text := "Safe Practice", correct := false,
        message := "Even for good intentions, personal devices are not secure." },
      { text := "Encouraged for Transparency", correct := false,
        message := "Transparency matters — but security protocols come first." }
    ] },
  { scenario := "You find a USB drive labeled “Staff Menu 2024” in the pantry.",
    choices := [
      { text := "Report to IT Immediately", correct := true,
        message := "It could be a bait. Never plug unknown devices." },
      { text := "Plug It In to Check Contents", correct := false,
        message := "Could contain malware or keyloggers." },
      { text := "Leave It on the Table", correct := false,
        message := "Someone else may fall into the trap." }
    ] },
  { scenario := "Someone walks behind you and says: ‘I\x27m from the audit team, can you hold the door?’",
    choices := [
      { text := "Politely Refuse and Ask for ID", correct := true,
        message := "Always verify. No badge = no access." },
      { text := "Hold the Door", correct := false,
        message := "Could be social engineering. Tailgating is a real threat." },
      { text := "Assume They\x27re an Employee", correct := false,
        message := "Never assume. It’s your responsibility to check." }
    ] },
  { scenario := "You spot a coworker’s password written on a sticky note stuck to their monitor.",
    choices := [
      { text := "Remind Them & Report to IT If Needed", correct := true,
        message := "Writing passwords down puts systems at risk." },
      { text := "Ignore It", correct := false,
        message := "Ignoring puts your team in danger." },
      { text := "Take Note for Emergency Use", correct := false,
        message := "That’s unauthorized access — a serious offence." }
    ] },
  { scenario := "A colleague sends a customer’s allergy info in a WhatsApp message for delivery coordination.",
    choices := [
      { text := "Data Breach", correct := true,
        message := "Personal apps are not protected. Use official tools only." },
      { text := "OK for Quick Tasks", correct := false,
        message := "Speed doesn’t justify insecure sharing." },
      { text := "Not an Issue if Deleted Later", correct := false,
        message := "Data can be backed up to cloud even after deletion." }
    ] }
]

/-- Placeholder question used for out-of-range indexing (JS would yield
`undefined`; the quiz only ever indexes in range). -/
def emptyQuestion : QuizQuestion := { scenario := "", choices := [] }

/-- One step of the comparator-driven insertion that models
`choices.sort(() => Math.random() - 0.5)` (src/script.js line 339): inserting
`a` into an already-processed list, each comparison invoking the comparator
once, i.e. consuming one fresh random value `rnd k`.  A negative comparator
result (`rnd k - 1/2 < 0`) places `a` before the element it was compared with.
Returns the list together with the next unused random index. -/
def jsInsert {α : Type} (rnd : Nat → ℚ) (a : α) : Nat → List α → List α × Nat
  | k, [] => ([a], k)
  | k, b :: l =>
    if rnd k - 1/2 < 0 then (a :: b :: l, k + 1)
    else
      let p := jsInsert rnd a (k + 1) l
      (b :: p.1, p.2)

/-- Insertion sort threading the random index, modelling `Array.prototype.sort`
on the 3-element choice arrays with the random comparator. -/
def jsSortAux {α : Type} (rnd : Nat → ℚ) : Nat → List α → List α × Nat
  | k, [] => ([], k)
  | k, a :: l =>
    let p := jsSortAux rnd k l
    jsInsert rnd a p.2 p.1

/-- The call `choices.sort(() => Math.random() - 0.5)` as a function of the
random stream. -/
def jsSort {α : Type} (rnd : Nat → ℚ) (l : List α) : List α :=
  (jsSortAux rnd 0 l).1

/-- A rendered choice button (src/script.js lines 340–350): `dataset.correct`
and `dataset.message` are DOM strings. -/
structure ChoiceButton where
  text : String
  correct : String
  message : String
deriving DecidableEq, Repr

/-- Button creation in `renderCard`: `btn.dataset.correct = choice.correct`
coerces the boolean to `"true"` / `"false"`. -/
def mkChoiceButton (c : Choice) : ChoiceButton :=
  { text := c.text
    correct := if c.correct then "true" else "false"
    message := c.message }

/-- One confetti particle (src/script.js lines 500–513). -/
structure ConfettiPiece where
  size : ℚ
  colour : String
  left : ℚ
  duration : ℚ
  delay : ℚ
deriving DecidableEq, Repr

/-- Default particle for out-of-range `getD` indexing. -/
def defaultPiece : ConfettiPiece := { size := 0, colour := "", left := 0, duration := 0, delay := 0 }

/-- The fixed palette (src/script.js lines 491–496). -/
def colours : List String := [
  "rgba(143, 247, 122, 0.9)",
  "rgba(196, 158, 234, 0.9)",
  "rgba(146, 224, 128, 0.9)",
  "rgba(91, 192, 235, 0.9)"]

/-- The `i`-th particle built inside the `launchConfetti` loop: four
`Math.random()` draws per iteration, in source order size, left, duration,
delay (src/script.js lines 503–510). -/
def mkPiece (rnd : Nat → ℚ) (i : Nat) : ConfettiPiece :=
  { size := rnd (4 * i) * 6 + 4
    colour := colours.getD (i % colours.length) ""
    left := rnd (4 * i + 1) * 100
    duration := 3 + rnd (4 * i + 2) * 2
    delay := rnd (4 * i + 3) * (1/2) }

/-- Model of `launchConfetti` (src/script.js lines 490–515): clears the container and
appends 40 particles. -/
def launchConfetti (rnd : Nat → ℚ) : List ConfettiPiece :=
  (List.range 40).map (mkPiece rnd)

/-- Quiz-session state: the closure variables `currentIndex`, `score`,
`answered` plus the DOM projections the claims speak about (scenario text,
rendered choice buttons and their disabled flag, explanation-node count on the
card back, next/finish button, flip class, scoreboard, confetti container). -/
structure QuizState where
  currentIndex : Nat
  score : Nat
  answered : Bool
  frontText : String
  choiceControls : List ChoiceButton
  choicesDisabled : Bool
  explanations : Nat
  nextVisible : Bool
  nextLabel : String
  flipped : Bool
  scoreboardVisible : Bool
  scoreText : String
  confetti : List ConfettiPiece
deriving DecidableEq, Repr

/-- Model of `renderCard(idx)` (src/script.js lines 320–387): set the scenario text,
clear previous choices and explanation, append one button per shuffled choice,
reset `answered` and feedback classes, hide the next button, relabel it
(`Next` before the last question, `Finish` on it), and unflip the card.  The
onboarding-notification timer (lines 364–386) is purely visual and is not part
of this state. -/
def renderCard (rnd : Nat → ℚ) (idx : Nat) (s : QuizState) : QuizState :=
  let data := quizData.getD idx emptyQuestion
  { s with
    frontText := data.scenario
    explanations := 0
    choiceControls := (jsSort rnd data.choices).map mkChoiceButton
    choicesDisabled := false
    answered := false
    nextVisible := false
    nextLabel := if idx < quizData.length - 1 then "Next" else "Finish"
    flipped := false }

/-- Model of `onSelectChoice` (src/script.js lines 415–448): early-return when already
answered; otherwise set `answered`, bump the score iff
`btn.dataset.correct === 'true'`, disable all choice buttons, append one
explanation node, and reveal the next button. -/
def onSelectChoice (b : ChoiceButton) (s : QuizState) : QuizState :=
  if s.answered then s
  else
    { s with
      answered := true
      score := if b.correct == "true" then s.score + 1 else s.score
      choicesDisabled := true
      explanations := s.explanations + 1
      nextVisible := true }

/-- Model of `goToNext` (src/script.js lines 451–468): increment the index; within
range re-render, past the end write `Score: {score}/{total}` on the
scoreboard, show it, and launch confetti exactly when the score is perfect. -/
def goToNext (rnd : Nat → ℚ) (s : QuizState) : QuizState :=
  let s1 := { s with currentIndex := s.currentIndex + 1 }
  if s1.currentIndex < quizData.length then
    renderCard rnd s1.currentIndex s1
  else
    { s1 with
      scoreText := "Score: " ++ toString s1.score ++ "/" ++ toString quizData.length
      scoreboardVisible := true
      confetti := if s1.score = quizData.length then launchConfetti rnd else s1.confetti }

/-- Model of `restartQuiz` (src/script.js lines 471–482): zero the session counters,
hide the scoreboard, empty the confetti container, re-render question 0. -/
def restartQuiz (rnd : Nat → ℚ) (s : QuizState) : QuizState :=
  renderCard rnd 0
    { s with
      currentIndex := 0
      score := 0
      answered := false
      scoreboardVisible := false
      confetti := [] }

/-- The closure state right after initialisation (lines 267–269) and before the
initial `renderCard(0)` call at line 529. -/
def initQuizState : QuizState :=
  { currentIndex := 0, score := 0, answered := false, frontText := ""
    choiceControls := [], choicesDisabled := false, explanations := 0
    nextVisible := false, nextLabel := "", flipped := false
    scoreboardVisible := false, scoreText := "", confetti := [] }

/-- State after page initialisation: `renderCard(0)` has run (line 529). -/
def initState (rnd : Nat → ℚ) : QuizState := renderCard rnd 0 initQuizState

/-- One question round: the user clicks choice button `b`, then clicks
next/finish (`goToNext`). -/
def answerAndNext (rnd : Nat → ℚ) (s : QuizState) (b : ChoiceButton) : QuizState :=
  goToNext rnd (onSelectChoice b s)

/-- A full session: from the initialised state, answer and advance once per
element of `picks` (the buttons the user clicked). -/
def runQuiz (rnd : Nat → ℚ) (picks : List ChoiceButton) : QuizState :=
  picks.foldl (answerAndNext rnd) (initState rnd)

/-- Number of correct selections among the clicked buttons, by the same test
the handler uses (`dataset.correct === 'true'`). -/
def countCorrect (picks : List ChoiceButton) : Nat :=
  (picks.filter (fun b => b.correct == "true")).length

/-- Tests that `needle` is a prefix of `hay`, character by character. -/
def isPrefixList : List Char → List Char → Bool
  | [], _ => true
  | _ :: _, [] => false
  | a :: as, b :: bs => a == b && isPrefixList as bs

/-- Model of `String.prototype.includes`: `needle` occurs contiguously in `hay`. -/
def containsSub (needle : List Char) : List Char → Bool
  | [] => needle.isEmpty
  | a :: rest => isPrefixList needle (a :: rest) || containsSub needle rest

/-- Scene choice from `setActiveScene` (src/script.js lines 15–24): the query
string is lowercased (`Char.toLower` covers the ASCII letters the keys use)
and scanned for the substrings `scene2`, then `scene3`, then `scene1`; the
variable starts out as `scene1`, so the fall-through default is `scene1`. -/
def sceneId (search : String) : String :=
  let s := search.toList.map Char.toLower
  if containsSub "scene2".toList s then "scene2"
  else if containsSub "scene3".toList s then "scene3"
  else if containsSub "scene1".toList s then "scene1"
  else "scene1"

/-- Model of the `setActiveScene` DOM effect (src/script.js lines 25–31) on the slide
containers, modelled as `(id, display)` pairs: every element of class `scene`
gets `display: none`, then `getElementById(sceneId)` — a lookup among those
ids — gets `display: block` when it exists. -/
def setActiveScene (search : String) (scenes : List (String × String)) :
    List (String × String) :=
  let sid := sceneId search
  let hidden := scenes.map (fun e => (e.1, "none"))
  if hidden.any (fun e => e.1 == sid) then
    hidden.map (fun e => if e.1 == sid then (e.1, "block") else e)
  else hidden

/-- Scene-1 exercise state: the two primary buttons' disabled flags, the card
and error-overlay tween targets, and whether the one-time retry handler is
currently bound (src/script.js lines 51–190). -/
structure Scene1State where
  lockDisabled : Bool
  ignoreDisabled : Bool
  cardScale : ℚ
  cardOpacity : ℚ
  errorOpacity : ℚ
  errorPointerEvents : String
  retryBound : Bool
deriving DecidableEq, Repr

/-- Model of `runErrorSequence` (src/script.js lines 144–186), settled state after its
tweens complete: both buttons disabled, card shrunk/faded, error overlay at
opacity 1; when the retry control exists, the overlay becomes interactive and
the one-time `onRetry` handler is bound.  The shake class is added and removed
again within the sequence (lines 156–162), leaving no trace in the settled
state. -/
def runErrorSequence (retryBtnPresent : Bool) (s : Scene1State) : Scene1State :=
  let s1 := { s with
    lockDisabled := true
    ignoreDisabled := true
    cardScale := 92/100
    cardOpacity := 0
    errorOpacity := 1 }
  if retryBtnPresent then
    { s1 with errorPointerEvents := "auto", retryBound := true }
  else s1

/-- A click on the retry control (src/script.js lines 168–180): the listener
only runs while bound; `onRetry` first removes itself, then (on completion of
the reverse timeline) the overlay is at opacity 0 and non-interactive, the
card is restored, and both buttons are re-enabled. -/
def clickRetry (s : Scene1State) : Scene1State :=
  if s.retryBound then
    { s with
      retryBound := false
      errorOpacity := 0
      cardScale := 1
      cardOpacity := 1
      errorPointerEvents := "none"
      lockDisabled := false
      ignoreDisabled := false }
  else s

/-- Presence of the scene-2 optional DOM elements (src/script.js
lines 204–219). -/
structure QuizDom where
  quizCard : Bool
  front : Bool
  backChoices : Bool
  backFace : Bool
  nextContainer : Bool
  nextButton : Bool
  scoreboard : Bool
  scoreText : Bool
  confettiContainer : Bool
  notificationEl : Bool
deriving DecidableEq, Repr

/-- Presence of the scene-1 elements consulted by the two sequences
(src/script.js lines 51–64, 99, 167). -/
structure Scene1Dom where
  lockBtn : Bool
  ignoreBtn : Bool
  lockToggle : Bool
  successCheck : Bool
  lockedSubtext : Bool
  retryBtn : Bool
  errorOverlayNew : Bool
deriving DecidableEq, Repr

/-- Null-guard walk of `renderCard` (src/script.js lines 320–387): `front`
(323), `backChoices` (327, 347), the back face (331), `nextContainer` (355),
`nextButton` (358) and the notification element (369) are all checked before
use, so their absence skips the dependent step; `quizCard.classList` at lines
353 and 362 is dereferenced with no check, so an absent quiz card throws. -/
def renderCardDomWalk (d : QuizDom) : Except String Unit :=
  if d.quizCard then Except.ok () else Except.error "quizCard"

/-- Null-guard walk of `onSelectChoice` (src/script.js lines 415–448):
`backChoices` (line 430) is checked; `quizCard.classList` (lines 424, 427, 442)
and the `.quiz-card-back` lookup result (`back.appendChild`, line 443) are
dereferenced with no check. -/
def onSelectChoiceDomWalk (d : QuizDom) : Except String Unit :=
  if !d.quizCard then Except.error "quizCard"
  else if !d.backFace then Except.error "quiz-card-back"
  else Except.ok ()

/-- Null-guard walk of `goToNext`'s finish branch together with
`launchConfetti` and `restartQuiz` (src/script.js lines 455–466, 471–482,
497–499): `scoreText`, `scoreboard` and `confettiContainer` are all checked
before use, so this path never throws on a missing element. -/
def finishDomWalk : QuizDom → Except String Unit :=
  fun _ => Except.ok ()

/-- Null-guard walk of `runLockSequence` (src/script.js lines 96–141):
`disableButtons` (67–69) dereferences the two primary buttons without checks
— the DOM contract assumes them present on scene 1 — while `lockToggle`
(105, 125), `successCheck` (134) and `lockedSubtext` (138) are checked; the
card/overlay/text tween targets go to library calls that accept null. -/
def runLockSequenceDomWalk (d : Scene1Dom) : Except String Unit :=
  if !d.lockBtn then Except.error "lock-btn"
  else if !d.ignoreBtn then Except.error "ignore-btn"
  else Except.ok ()

/-- Null-guard walk of `runErrorSequence` (src/script.js lines 144–186): the
primary buttons as in `runLockSequence`; `monitorShakeContainer` (156) and
`retryBtn` (181) are checked; but when the retry control exists,
`errorOverlayNew.style.pointerEvents` (line 183) is assigned with no check. -/
def runErrorSequenceDomWalk (d : Scene1Dom) : Except String Unit :=
  if !d.lockBtn then Except.error "lock-btn"
  else if !d.ignoreBtn then Except.error "ignore-btn"
  else if d.retryBtn && !d.errorOverlayNew then Except.error "error-overlay-new"
  else Except.ok ()

/-- A DOM in which every optional element exists except the quiz card. -/
def noCardDom : QuizDom :=
  { quizCard := false, front := true, backChoices := true, backFace := true
    nextContainer := true, nextButton := true, scoreboard := true
    scoreText := true, confettiContainer := true, notificationEl := true }

/-- A correct choice button, as built for a choice with `correct = true`. -/
def sampleCorrectButton : ChoiceButton := { text := "x", correct := "true", message := "m" }

/-- Five clicked buttons that all carry the correct flag. -/
def correct5 : List ChoiceButton := List.replicate 5 sampleCorrectButton

/-- A scene-2 DOM with every element present. -/
def fullQuizDom : QuizDom :=
  { quizCard := true, front := true, backChoices := true, backFace := true
    nextContainer := true, nextButton := true, scoreboard := true
    scoreText := true, confettiContainer := true, notificationEl := true }

/-- A scene-1 DOM with every element present. -/
def fullScene1Dom : Scene1Dom :=
  { lockBtn := true, ignoreBtn := true, lockToggle := true, successCheck := true
    lockedSubtext := true, retryBtn := true, errorOverlayNew := true }

/-- C2: selecting a choice on an unanswered card sets `answered`, adds 1 to the
score exactly when the button carries the correct flag, appends exactly one
explanation node, and makes any later selection attempt on the same card a
no-op on the whole session state. -/
theorem onSelectChoice_at_most_once (s : QuizState) (b b2 : ChoiceButton)
    (h : s.answered = false) :
    (onSelectChoice b s).answered = true ∧
    (onSelectChoice b s).score = (if b.correct == "true" then s.score + 1 else s.score) ∧
    (onSelectChoice b s).explanations = s.explanations + 1 ∧
    onSelectChoice b2 (onSelectChoice b s) = onSelectChoice b s := by
  simp [onSelectChoice, h]

/-- Witness for C2 at the freshly initialised session and a correct button. -/
theorem onSelectChoice_at_most_once_witness :
    (initState (fun _ => 0)).answered = false ∧
    (onSelectChoice sampleCorrectButton (initState (fun _ => 0))).answered = true :=
  ⟨rfl, (onSelectChoice_at_most_once (initState (fun _ => 0))
      sampleCorrectButton sampleCorrectButton rfl).1⟩

/-- C7: whatever the prior session state, `restartQuiz` zeroes the index and
score, clears `answered`, hides the scoreboard, empties the confetti
container, and re-renders question 0. -/
theorem restartQuiz_resets (rnd : Nat → ℚ) (s : QuizState) :
    (restartQuiz rnd s).currentIndex = 0 ∧
    (restartQuiz rnd s).score = 0 ∧
    (restartQuiz rnd s).answered = false ∧
    (restartQuiz rnd s).scoreboardVisible = false ∧
    (restartQuiz rnd s).confetti = [] ∧
    (restartQuiz rnd s).frontText = (quizData.getD 0 emptyQuestion).scenario ∧
    (restartQuiz rnd s).choiceControls
      = (jsSort rnd (quizData.getD 0 emptyQuestion).choices).map mkChoiceButton ∧
    (restartQuiz rnd s).nextLabel = "Next" := by
  have hn : quizData.length = 5 := rfl
  simp [restartQuiz, renderCard, hn]

/-- C8: after the incorrect choice, the bound retry handler fires at most
once — a first click restores the card, hides the error overlay, and
re-enables both primary controls, and a second click is a no-op because the
handler removed itself. -/
theorem retry_handler_once (s : Scene1State) :
    (runErrorSequence true s).retryBound = true ∧
    (clickRetry (runErrorSequence true s)).lockDisabled = false ∧
    (clickRetry (runErrorSequence true s)).ignoreDisabled = false ∧
    (clickRetry (runErrorSequence true s)).errorOpacity = 0 ∧
    (clickRetry (runErrorSequence true s)).cardScale = 1 ∧
    (clickRetry (runErrorSequence true s)).cardOpacity = 1 ∧
    (clickRetry (runErrorSequence true s)).retryBound = false ∧
    clickRetry (clickRetry (runErrorSequence true s)) = clickRetry (runErrorSequence true s) := by
  simp [runErrorSequence, clickRetry]

/-- C10: when no slide container carries the selected scene id,
`setActiveScene` still completes and leaves every container hidden. -/
theorem setActiveScene_missing_id (search : String) (scenes : List (String × String))
    (h : ∀ e ∈ scenes, e.1 ≠ sceneId search) :
    ∀ e ∈ setActiveScene search scenes, e.2 = "none" := by
  have hany : ((scenes.map (fun e => (e.1, "none"))).any
      (fun e => e.1 == sceneId search)) = false := by
    rw [List.any_eq_false]
    intro x hx
    obtain ⟨y, hy, rfl⟩ := List.mem_map.mp hx
    simpa using h y hy
  intro e he
  simp only [setActiveScene, hany, Bool.false_eq_true, if_false] at he
  obtain ⟨y, hy, rfl⟩ := List.mem_map.mp he
  rfl

/-- Witness for C10: a page whose only container is `foo` with no query. -/
theorem setActiveScene_missing_id_witness :
    (∀ e ∈ [("foo", "block")], Prod.fst e ≠ sceneId "") ∧
    (∀ e ∈ setActiveScene "" [("foo", "block")], e.2 = "none") :=
  ⟨by decide, setActiveScene_missing_id "" [("foo", "block")] (by decide)⟩

/-- C5 counterexample: with every optional element present except the quiz
card, `renderCard` dereferences the absent quiz card without a null check and
raises instead of silently skipping. -/
theorem optional_guard_counterexample :
    renderCardDomWalk noCardDom = Except.error "quizCard" ∧
    renderCardDomWalk noCardDom ≠ Except.ok () := by
  constructor <;> simp [renderCardDomWalk, noCardDom]

/-- C5 amended: optional-element lookups are null-checked except the quiz
card (unguarded in `renderCard` and `onSelectChoice`), the `.quiz-card-back`
lookup result in `onSelectChoice`, and the error-overlay style assignment in
the retry path; the finish/confetti/restart path and all remaining optional
elements are fully guarded (the two primary scene-1 buttons are assumed
present by the DOM contract). -/
theorem dom_guards_amended (d : QuizDom) (e : Scene1Dom) :
    (renderCardDomWalk d = Except.ok () ↔ d.quizCard = true) ∧
    (onSelectChoiceDomWalk d = Except.ok () ↔ (d.quizCard = true ∧ d.backFace = true)) ∧
    (finishDomWalk d = Except.ok ()) ∧
    (runLockSequenceDomWalk e = Except.ok () ↔ (e.lockBtn = true ∧ e.ignoreBtn = true)) ∧
    (runErrorSequenceDomWalk e = Except.ok () ↔
      (e.lockBtn = true ∧ e.ignoreBtn = true ∧
        (e.retryBtn = true → e.errorOverlayNew = true))) := by
  refine ⟨?_, ?_, rfl, ?_, ?_⟩
  · cases hq : d.quizCard <;> simp [renderCardDomWalk, hq]
  · cases hq : d.quizCard <;> cases hb : d.backFace <;>
      simp [onSelectChoiceDomWalk, hq, hb]
  · cases h1 : e.lockBtn <;> cases h2 : e.ignoreBtn <;>
      simp [runLockSequenceDomWalk, h1, h2]
  · cases h1 : e.lockBtn <;> cases h2 : e.ignoreBtn <;>
      cases h3 : e.retryBtn <;> cases h4 : e.errorOverlayNew <;>
      simp [runErrorSequenceDomWalk, h1, h2, h3, h4]

/-- Witness for the amended guard statement on fully populated pages. -/
theorem dom_guards_amended_witness :
    renderCardDomWalk fullQuizDom = Except.ok () ∧
    runErrorSequenceDomWalk fullScene1Dom = Except.ok () :=
  ⟨(dom_guards_amended fullQuizDom fullScene1Dom).1.mpr rfl,
   (dom_guards_amended fullQuizDom fullScene1Dom).2.2.2.2.mpr ⟨rfl, rfl, fun _ => rfl⟩⟩

/-- Whatever the query string, the selected scene id is one of the three
page ids. -/
theorem sceneId_mem (search : String) :
    sceneId search = "scene1" ∨ sceneId search = "scene2" ∨ sceneId search = "scene3" := by
  simp only [sceneId]
  split_ifs <;> simp

/-- On the standard three-container page, `setActiveScene` keeps the container
ids, marks exactly the selected container `block`, and every container ends up
either `block` or `none`. -/
theorem setActiveScene_three (search d1 d2 d3 : String) :
    ((setActiveScene search [("scene1", d1), ("scene2", d2), ("scene3", d3)]).map Prod.fst
      = ["scene1", "scene2", "scene3"]) ∧
    (((setActiveScene search [("scene1", d1), ("scene2", d2), ("scene3", d3)]).filter
        (fun e => e.2 == "block")).map Prod.fst = [sceneId search]) ∧
    (∀ e ∈ setActiveScene search [("scene1", d1), ("scene2", d2), ("scene3", d3)],
      e.2 = "block" ∨ e.2 = "none") := by
  rcases sceneId_mem search with h | h | h <;> rw [h] <;> simp [setActiveScene, h]

/-- C3: scene selection is case-insensitive substring containment with
precedence `scene2 > scene3 > scene1` and default `scene1`; on the standard
three-container page every container is first hidden and then exactly the
selected one is made visible. -/
theorem setActiveScene_precedence (search d1 d2 d3 : String) :
    (sceneId search =
      (if containsSub "scene2".toList (search.toList.map Char.toLower) then "scene2"
       else if containsSub "scene3".toList (search.toList.map Char.toLower) then "scene3"
       else "scene1")) ∧
    ((setActiveScene search [("scene1", d1), ("scene2", d2), ("scene3", d3)]).map Prod.fst
      = ["scene1", "scene2", "scene3"]) ∧
    (((setActiveScene search [("scene1", d1), ("scene2", d2), ("scene3", d3)]).filter
        (fun e => e.2 == "block")).map Prod.fst = [sceneId search]) ∧
    (∀ e ∈ setActiveScene search [("scene1", d1), ("scene2", d2), ("scene3", d3)],
      e.2 = "block" ∨ e.2 = "none") := by
  obtain ⟨a, b, c⟩ := setActiveScene_three search d1 d2 d3
  refine ⟨?_, a, b, c⟩
  simp only [sceneId]
  split_ifs <;> rfl

/-- Inserting with the random comparator permutes: the result is the element
together with the list it was inserted into. -/
theorem jsInsert_perm {α : Type} (rnd : Nat → ℚ) (a : α) (k : Nat) (l : List α) :
    (jsInsert rnd a k l).1.Perm (a :: l) := by
  induction l generalizing k with
  | nil => simp [jsInsert]
  | cons b t ih =>
    simp only [jsInsert]
    split
    · exact List.Perm.refl _
    · exact ((ih (k + 1)).cons b).trans (List.Perm.swap a b t)

/-- The comparator-driven sort permutes its input, whatever the random
stream. -/
theorem jsSortAux_perm {α : Type} (rnd : Nat → ℚ) (k : Nat) (l : List α) :
    (jsSortAux rnd k l).1.Perm l := by
  induction l generalizing k with
  | nil => simp [jsSortAux]
  | cons a t ih =>
    simp only [jsSortAux]
    exact (jsInsert_perm rnd a _ _).trans ((ih k).cons a)

/-- The sort `jsSort` produces a permutation of its input. -/
theorem jsSort_perm {α : Type} (rnd : Nat → ℚ) (l : List α) :
    (jsSort rnd l).Perm l :=
  jsSortAux_perm rnd 0 l

/-- The rendered button carries the correct flag exactly when the choice
does. -/
theorem mkChoiceButton_correct (c : Choice) :
    ((mkChoiceButton c).correct == "true") = c.correct := by
  cases hc : c.correct <;> simp [mkChoiceButton, hc]

/-- C4: the quiz holds exactly 5 questions, each with exactly 3 choices of
which exactly one is correct; and for every in-range index, `renderCard`
creates exactly 3 choice controls of which exactly one carries the
`correct=true` flag, whatever the shuffle outcome. -/
theorem quiz_structure :
    quizData.length = 5 ∧
    (∀ q ∈ quizData,
      q.choices.length = 3 ∧ (q.choices.filter (fun c => c.correct)).length = 1) ∧
    (∀ rnd : Nat → ℚ, ∀ s : QuizState, ∀ i, i < 5 →
      (renderCard rnd i s).choiceControls.length = 3 ∧
      ((renderCard rnd i s).choiceControls.filter
        (fun b => b.correct == "true")).length = 1) := by
  refine ⟨rfl, by decide, ?_⟩
  intro rnd s i hi
  have hq : (quizData.getD i emptyQuestion).choices.length = 3 ∧
      ((quizData.getD i emptyQuestion).choices.filter (fun c => c.correct)).length = 1 := by
    interval_cases i <;> exact ⟨rfl, rfl⟩
  have hperm := jsSort_perm rnd (quizData.getD i emptyQuestion).choices
  constructor
  · show ((jsSort rnd (quizData.getD i emptyQuestion).choices).map mkChoiceButton).length = 3
    rw [List.length_map, hperm.length_eq, hq.1]
  · show (((jsSort rnd (quizData.getD i emptyQuestion).choices).map mkChoiceButton).filter
        (fun b => b.correct == "true")).length = 1
    rw [List.filter_map, List.length_map]
    have hfun : ((fun b : ChoiceButton => b.correct == "true") ∘ mkChoiceButton)
        = (fun c : Choice => c.correct) := funext fun c => mkChoiceButton_correct c
    rw [hfun, (hperm.filter (fun c : Choice => c.correct)).length_eq, hq.2]

/-- C9: `renderCard` presents the three choices in an order driven by the
random comparator: it is always a permutation of the question's defined
choices, different random streams can yield different orders, and the order is
not always the defined one. -/
theorem renderCard_shuffle_nondeterministic (i : Nat) (hi : i < 5) (s : QuizState) :
    (∀ rnd : Nat → ℚ, (renderCard rnd i s).choiceControls.Perm
      ((quizData.getD i emptyQuestion).choices.map mkChoiceButton)) ∧
    (∃ r1 r2 : Nat → ℚ,
      (renderCard r1 i s).choiceControls ≠ (renderCard r2 i s).choiceControls) ∧
    (∃ r : Nat → ℚ, (renderCard r i s).choiceControls
      ≠ (quizData.getD i emptyQuestion).choices.map mkChoiceButton) := by
  have hlt0 : ((0:ℚ) - 1/2 < 0) := by norm_num
  have hlt1 : ¬((1:ℚ) - 1/2 < 0) := by norm_num
  refine ⟨?_, ⟨fun _ => 0, fun _ => 1, ?_⟩, ⟨fun _ => 1, ?_⟩⟩
  · intro rnd
    simpa [renderCard] using
      (jsSort_perm rnd (quizData.getD i emptyQuestion).choices).map mkChoiceButton
  · show ((jsSort (fun _ => (0:ℚ)) (quizData.getD i emptyQuestion).choices).map mkChoiceButton)
      ≠ ((jsSort (fun _ => (1:ℚ)) (quizData.getD i emptyQuestion).choices).map mkChoiceButton)
    interval_cases i <;>
      (norm_num [jsSort, jsSortAux, jsInsert, mkChoiceButton, quizData]; try decide)
  · show ((jsSort (fun _ => (1:ℚ)) (quizData.getD i emptyQuestion).choices).map mkChoiceButton)
      ≠ (quizData.getD i emptyQuestion).choices.map mkChoiceButton
    interval_cases i <;>
      (norm_num [jsSort, jsSortAux, jsInsert, mkChoiceButton, quizData]; try decide)

/-- Witness for C4 at index 0 with a constant random stream. -/
theorem quiz_structure_witness :
    (0:Nat) < 5 ∧ (renderCard (fun _ => 0) 0 initQuizState).choiceControls.length = 3 :=
  ⟨by decide, (quiz_structure.2.2 (fun _ => 0) initQuizState 0 (by decide)).1⟩

/-- Witness for C9 at index 0. -/
theorem renderCard_shuffle_nondeterministic_witness :
    (0:Nat) < 5 ∧
    (∃ r1 r2 : Nat → ℚ, (renderCard r1 0 initQuizState).choiceControls
      ≠ (renderCard r2 0 initQuizState).choiceControls) :=
  ⟨by decide, (renderCard_shuffle_nondeterministic 0 (by decide) initQuizState).2.1⟩

/-- Splitting one selection off the correct-selection count. -/
theorem countCorrect_cons (b : ChoiceButton) (l : List ChoiceButton) :
    countCorrect (b :: l) = (if b.correct == "true" then 1 else 0) + countCorrect l := by
  cases hb : (b.correct == "true") <;> (simp [countCorrect, hb]; try omega)

/-- Invariant run lemma: starting from an unanswered card with an empty
confetti container and as many picks left as questions remain, answering and
advancing through all of them shows the scoreboard with
`Score: {initial + correct picks}/{total}` and launches confetti exactly on a
perfect total. -/
theorem runAux (rnd : Nat → ℚ) (picks : List ChoiceButton) (s : QuizState)
    (ha : s.answered = false) (hc : s.confetti = [])
    (hi : s.currentIndex + picks.length = quizData.length) (hne : picks ≠ []) :
    (picks.foldl (answerAndNext rnd) s).score = s.score + countCorrect picks ∧
    (picks.foldl (answerAndNext rnd) s).scoreboardVisible = true ∧
    (picks.foldl (answerAndNext rnd) s).scoreText =
      "Score: " ++ toString (s.score + countCorrect picks) ++ "/" ++ toString quizData.length ∧
    (picks.foldl (answerAndNext rnd) s).confetti =
      (if s.score + countCorrect picks = quizData.length then launchConfetti rnd else []) := by
  have hql : quizData.length = 5 := rfl
  induction picks generalizing s with
  | nil => exact absurd rfl hne
  | cons b tl ih =>
    rw [List.foldl_cons]
    by_cases htl : tl = []
    · subst htl
      have h4 : s.currentIndex = 4 := by
        rw [hql] at hi
        simpa using hi
      rw [List.foldl_nil]
      cases hb : (b.correct == "true") <;>
        simp [answerAndNext, onSelectChoice, goToNext, ha, hc, h4, hql,
          countCorrect, hb]
    · have h1 : 0 < tl.length := List.length_pos.mpr htl
      have hlt : s.currentIndex + 1 < quizData.length := by
        simp only [List.length_cons] at hi
        omega
      set s2 := answerAndNext rnd s b with hs2
      have h2a : s2.answered = false := by
        simp [hs2, answerAndNext, onSelectChoice, goToNext, renderCard, ha, hlt]
      have h2c : s2.confetti = [] := by
        simp [hs2, answerAndNext, onSelectChoice, goToNext, renderCard, ha, hlt, hc]
      have h2i : s2.currentIndex + tl.length = quizData.length := by
        have hx : s2.currentIndex = s.currentIndex + 1 := by
          simp [hs2, answerAndNext, onSelectChoice, goToNext, renderCard, ha, hlt]
        rw [hx]
        simp only [List.length_cons] at hi
        omega
      have h2s : s2.score = s.score + (if b.correct == "true" then 1 else 0) := by
        cases hb : (b.correct == "true") <;>
          simp [hs2, answerAndNext, onSelectChoice, goToNext, renderCard, ha, hlt, hb]
      obtain ⟨A, B, C, D⟩ := ih s2 h2a h2c h2i htl
      have key : s2.score + countCorrect tl = s.score + countCorrect (b :: tl) := by
        rw [h2s, countCorrect_cons]
        omega
      rw [key] at A C D
      exact ⟨A, B, C, D⟩

/-- C1: after a selection on each of the 5 questions, the `goToNext` past the
last index shows the scoreboard reading `Score: {score}/5` with the score
equal to the number of correct selections, and the celebration fires exactly
on a perfect score. -/
theorem quiz_completion_scoreboard (rnd : Nat → ℚ) (picks : List ChoiceButton)
    (h : picks.length = 5) :
    (runQuiz rnd picks).score = countCorrect picks ∧
    (runQuiz rnd picks).scoreboardVisible = true ∧
    (runQuiz rnd picks).scoreText
      = "Score: " ++ toString (countCorrect picks) ++ "/" ++ "5" ∧
    ((runQuiz rnd picks).confetti.length = 40 ↔ countCorrect picks = 5) := by
  have hql : quizData.length = 5 := rfl
  have hne : picks ≠ [] := by
    intro hh
    rw [hh] at h
    simp at h
  have hii : (initState rnd).currentIndex + picks.length = quizData.length := by
    rw [h]
    rfl
  obtain ⟨A, B, C, D⟩ := runAux rnd picks (initState rnd) rfl rfl hii hne
  have h0 : (initState rnd).score = 0 := rfl
  rw [h0, Nat.zero_add] at A C D
  have h5 : toString quizData.length = "5" := rfl
  rw [h5] at C
  rw [hql] at D
  simp only [runQuiz]
  refine ⟨A, B, C, ?_⟩
  constructor
  · intro h40
    by_contra hcc
    rw [D, if_neg hcc] at h40
    simp at h40
  · intro hcc
    rw [D, if_pos hcc]
    simp [launchConfetti]

/-- Witness for C1: five correct selections. -/
theorem quiz_completion_scoreboard_witness :
    correct5.length = 5 ∧ (runQuiz (fun _ => 0) correct5).scoreboardVisible = true :=
  ⟨rfl, (quiz_completion_scoreboard (fun _ => 0) correct5 rfl).2.1⟩

/-- The confetti burst always holds exactly 40 particles. -/
theorem launchConfetti_length (rnd : Nat → ℚ) : (launchConfetti rnd).length = 40 := by
  simp [launchConfetti]

/-- The `i`-th confetti particle is the one the loop builds at index `i`. -/
theorem launchConfetti_getD (rnd : Nat → ℚ) (i : Nat) (h : i < 40) :
    (launchConfetti rnd).getD i defaultPiece = mkPiece rnd i := by
  simp [launchConfetti, List.getD, List.getElem?_map, List.getElem?_range, h]

/-- Particle attribute ranges, given that every random draw lies in `[0,1)`:
size in `[4,10]`, palette colour cycled by index, horizontal position in
`[0,100]`, fall duration in `[3,5]`, start delay in `[0,1/2]`. -/
theorem mkPiece_bounds (rnd : Nat → ℚ) (hr : ∀ n, 0 ≤ rnd n ∧ rnd n < 1) (i : Nat) :
    4 ≤ (mkPiece rnd i).size ∧ (mkPiece rnd i).size ≤ 10 ∧
    (mkPiece rnd i).colour = colours.getD (i % 4) "" ∧
    0 ≤ (mkPiece rnd i).left ∧ (mkPiece rnd i).left ≤ 100 ∧
    3 ≤ (mkPiece rnd i).duration ∧ (mkPiece rnd i).duration ≤ 5 ∧
    0 ≤ (mkPiece rnd i).delay ∧ (mkPiece rnd i).delay ≤ 1/2 := by
  obtain ⟨ha0, ha1⟩ := hr (4 * i)
  obtain ⟨hb0, hb1⟩ := hr (4 * i + 1)
  obtain ⟨hc0, hc1⟩ := hr (4 * i + 2)
  obtain ⟨hd0, hd1⟩ := hr (4 * i + 3)
  refine ⟨?_, ?_, rfl, ?_, ?_, ?_, ?_, ?_, ?_⟩ <;> (simp only [mkPiece]; nlinarith)

/-- C6: on a perfect run the scoreboard's confetti container holds exactly 40
particles with size in `[4,10]` px, colour cycled from the 4-colour palette by
index, horizontal position in `[0,100]`%, fall duration in `[3,5]` s and start
delay in `[0,0.5]` s; an imperfect run leaves the container empty. -/
theorem confetti_celebration (rnd : Nat → ℚ) (picks : List ChoiceButton)
    (hlen : picks.length = 5) (hr : ∀ n, 0 ≤ rnd n ∧ rnd n < 1) :
    (countCorrect picks = 5 →
      (runQuiz rnd picks).confetti.length = 40 ∧
      (∀ i, i < 40 →
        4 ≤ ((runQuiz rnd picks).confetti.getD i defaultPiece).size ∧
        ((runQuiz rnd picks).confetti.getD i defaultPiece).size ≤ 10 ∧
        ((runQuiz rnd picks).confetti.getD i defaultPiece).colour
          = colours.getD (i % 4) "" ∧
        0 ≤ ((runQuiz rnd picks).confetti.getD i defaultPiece).left ∧
        ((runQuiz rnd picks).confetti.getD i defaultPiece).left ≤ 100 ∧
        3 ≤ ((runQuiz rnd picks).confetti.getD i defaultPiece).duration ∧
        ((runQuiz rnd picks).confetti.getD i defaultPiece).duration ≤ 5 ∧
        0 ≤ ((runQuiz rnd picks).confetti.getD i defaultPiece).delay ∧
        ((runQuiz rnd picks).confetti.getD i defaultPiece).delay ≤ 1/2)) ∧
    (countCorrect picks ≠ 5 → (runQuiz rnd picks).confetti = []) := by
  have hql : quizData.length = 5 := rfl
  have hne : picks ≠ [] := by
    intro hh
    rw [hh] at hlen
    simp at hlen
  have hii : (initState rnd).currentIndex + picks.length = quizData.length := by
    rw [hlen]
    rfl
  obtain ⟨A, B, C, D⟩ := runAux rnd picks (initState rnd) rfl rfl hii hne
  have h0 : (initState rnd).score = 0 := rfl
  rw [h0, Nat.zero_add, hql] at D
  simp only [runQuiz]
  constructor
  · intro hcc
    rw [D, if_pos hcc]
    refine ⟨launchConfetti_length rnd, ?_⟩
    intro i hi40
    rw [launchConfetti_getD rnd i hi40]
    exact mkPiece_bounds rnd hr i
  · intro hcc
    rw [D, if_neg hcc]

/-- Witness for C6: a perfect run under the constant-zero random stream. -/
theorem confetti_celebration_witness :
    correct5.length = 5 ∧ (∀ n : Nat, 0 ≤ (fun _ => (0:ℚ)) n ∧ (fun _ => (0:ℚ)) n < 1) ∧
    (runQuiz (fun _ => 0) correct5).confetti.length = 40 :=
  ⟨rfl, fun _ => by norm_num,
    ((confetti_celebration (fun _ => 0) correct5 rfl (fun _ => by norm_num)).1
      (by decide)).1⟩

end Frontliner
